import Mathlib

/-!
Verification of the `hapi` `Model` wrapper (`model.py`).

The file shallowly embeds `model.py`: Python values are `PyVal`, raised
exceptions are `PyErr`, and attribute mutation is explicit state passing on
the `Model` structure.  Calls into the wrapped deep-learning framework
(program construction, executors, `fluid.save`/`load`, `forward` bodies,
autodiff) are outside this repository; they are recorded as `Event`s in an
effect trace and their produced tensors are represented by the opaque
`PyVal.obj` constructor.  Everything the repository itself computes
(argument normalisation, readiness assertions, cache keys, device
selection, mode bookkeeping, shape-hint handling) is embedded faithfully
from the source.
-/

/-- Python exceptions that the code in `model.py` itself can raise.
`raisedStr` models the statement `raise "device not supported"` (raising a
plain string, which CPython surfaces as an exception at that point). -/
inductive PyErr where
  | assertionError (msg : String)
  | typeError (msg : String)
  | indexError (msg : String)
  | attributeError (msg : String)
  | raisedStr (msg : String)
deriving DecidableEq

/-- Python values as far as `model.py` inspects them.  `optObj sd` is an
optimizer object whose `state_dict()` returns the dictionary `sd`; `obj`
is any other framework object (tensor, ndarray, program, ...), which the
repository never takes apart. -/
inductive PyVal where
  | none
  | bool (b : Bool)
  | int (n : Int)
  | str (s : String)
  | list (xs : List PyVal)
  | tuple (xs : List PyVal)
  | optObj (state_dict : List (String × PyVal))
  | obj (tag : String)

/-- Python truthiness (`bool(v)`): `None`, `False`, `0`, empty strings and
empty containers are falsy; optimizer and other plain objects are truthy. -/
def truthy : PyVal → Bool
  | PyVal.none => false
  | PyVal.bool b => b
  | PyVal.int n => n != 0
  | PyVal.str s => !s.isEmpty
  | PyVal.list xs => !xs.isEmpty
  | PyVal.tuple xs => !xs.isEmpty
  | PyVal.optObj _ => true
  | PyVal.obj _ => true

/-- `isinstance(v, (list, tuple))`. -/
def is_list_or_tuple : PyVal → Bool
  | PyVal.list _ => true
  | PyVal.tuple _ => true
  | _ => false

/-- `v is None`. -/
def isNone : PyVal → Bool
  | PyVal.none => true
  | _ => false

/-- `to_list` from `model.py`: a list or tuple is returned unchanged, any
other value is wrapped in a singleton list. -/
def to_list (value : PyVal) : PyVal :=
  if is_list_or_tuple value then value else PyVal.list [value]

/-- The elements of a list or tuple (for any other value, its `to_list`
image's elements, i.e. the singleton). -/
def seqItems : PyVal → List PyVal
  | PyVal.list xs => xs
  | PyVal.tuple xs => xs
  | v => [v]

/-- `str(v)` as used to build compiled-program cache keys.  Container and
object reprs are abstracted to tags; no claim depends on their text. -/
def py_str : PyVal → String
  | PyVal.none => "None"
  | PyVal.bool true => "True"
  | PyVal.bool false => "False"
  | PyVal.int n => toString n
  | PyVal.str s => s
  | PyVal.list _ => "<list>"
  | PyVal.tuple _ => "<tuple>"
  | PyVal.optObj _ => "<optimizer>"
  | PyVal.obj tag => tag

/-- `iter(v)` as used by the comprehension `[str(i) for i in device_ids]`:
lists, tuples and strings are iterable, `None`, booleans, numbers and
optimizer/plain objects are not. -/
def py_iter : PyVal → Except PyErr (List PyVal)
  | PyVal.list xs => Except.ok xs
  | PyVal.tuple xs => Except.ok xs
  | PyVal.str s => Except.ok (s.data.map fun c => PyVal.str (String.mk [c]))
  | PyVal.none => Except.error (PyErr.typeError "NoneType object is not iterable")
  | PyVal.bool _ => Except.error (PyErr.typeError "bool object is not iterable")
  | PyVal.int _ => Except.error (PyErr.typeError "int object is not iterable")
  | PyVal.optObj _ => Except.error (PyErr.typeError "object is not iterable")
  | PyVal.obj _ => Except.error (PyErr.typeError "object is not iterable")

/-- `v.state_dict()` (only optimizer objects provide it). -/
def py_state_dict : PyVal → Except PyErr (List (String × PyVal))
  | PyVal.optObj sd => Except.ok sd
  | _ => Except.error (PyErr.attributeError "state_dict")

/-- ASCII lower-casing of one character (enough for the `'CPU'`/`'GPU'`
device names `lower()` is applied to). -/
def asciiLower (c : Char) : Char :=
  if 65 ≤ c.toNat && c.toNat ≤ 90 then Char.ofNat (c.toNat + 32) else c

/-- `s.lower()` on device names. -/
def pyLower (s : String) : String := String.mk (s.data.map asciiLower)

/-- Lexicographic comparison of character lists by code point, as Python
compares strings. -/
def charListLe : List Char → List Char → Bool
  | [], _ => true
  | _ :: _, [] => false
  | a :: as, b :: bs =>
    if a.toNat < b.toNat then true
    else if b.toNat < a.toNat then false
    else charListLe as bs

/-- Python string comparison `a <= b` (by code points). -/
def strLe (a b : String) : Bool := charListLe a.data b.data

/-- Insert a string into a sorted list (helper for `list.sort()`). -/
def insertStr (s : String) : List String → List String
  | [] => [s]
  | t :: ts => if strLe s t then s :: t :: ts else t :: insertStr s ts

/-- `ids.sort()` on a list of strings (lexicographic, as in Python). -/
def sortStrs : List String → List String
  | [] => []
  | s :: ss => insertStr s (sortStrs ss)

/-- A Python function as `model.py` inspects one: `args` is
`extract_args(func)` (the positional argument names, `self` included for
methods) and `shape_hints` is the attribute set by the decorator of the
same name (absent by default). -/
structure PyFunc where
  args : List String
  shape_hints : Option (List (String × PyVal))

/-- The `shape_hints` decorator applied to a function: the decorator
factory asserts that the keyword hints are non-empty and that every hint
value is a list or tuple; the returned wrapper asserts that every hint
name is an argument of the function, then stores the hints on the
function and returns it.  (The Python message for an invalid name also
interpolates the offending names.) -/
def shape_hints (hints : List (String × PyVal)) (func : PyFunc) :
    Except PyErr PyFunc :=
  if hints.isEmpty then
    Except.error (PyErr.assertionError "hints can not be empty")
  else if hints.all (fun h => is_list_or_tuple h.2) then
    (if (hints.map Prod.fst).all (fun k => func.args.contains k) then
      Except.ok { func with shape_hints := some hints }
    else
      Except.error (PyErr.assertionError
        "shape hint for arguments that are not present in forward method"))
  else
    Except.error (PyErr.assertionError "shape hint must be a list or tuple")

/-- `OrderedDict.update`: keys already present keep their position and get
the new value; keys not present are appended in order. -/
def odUpdate (base upd : List (String × PyVal)) : List (String × PyVal) :=
  (base.map fun kv =>
    match upd.find? (fun u => u.1 == kv.1) with
    | some u => (kv.1, u.2)
    | Option.none => kv) ++
  upd.filter fun u => base.all fun kv => !(kv.1 == u.1)

/-- The `_input_desc` ordered dict built in `StaticGraphAdapter.__init__`:
one `None`-shaped entry per non-`self` argument of `forward`, then updated
with the function's `shape_hints` attribute when present. -/
def init_input_desc (fargs : List String)
    (hints : Option (List (String × PyVal))) : List (String × PyVal) :=
  let base := (fargs.filter fun n => n != "self").map fun n => (n, PyVal.none)
  match hints with
  | Option.none => base
  | some hs => odUpdate base hs

/-- Execution places chosen by `_compile_and_initialize`. -/
inductive Place where
  | cpu
  | cuda (deviceId : PyVal)

/-- Which program `StaticGraphAdapter.save` persists from. -/
inductive ProgChoice where
  | cachedProg (mode : String)
  | mainProg

/-- Calls into the wrapped framework, recorded as an effect trace. -/
inductive Event where
  | madeProgram (mode : String)
  | compiled (progHash : String) (place : Place)
  | dataParallel
  | executed (mode : String)
  | layerTrainCalled
  | forwardCalled
  | backwardCalled
  | minimizeCalled
  | clearGradientsCalled
  | printed (msg : String)
  | savedStatic (prog : ProgChoice) (path : String)
  | loadedStatic (path : String)
  | savedDygraphParams (path : String)
  | savedDygraphOptim (path : String)
  | loadedDygraph (path : String)

/-- The mutable attributes of a `StaticGraphAdapter` that the repository
itself reads back: the parsed input description, and the keys of the
`_progs` / `_compiled_progs` caches.  Framework-owned attributes (programs,
scope, executor, label variables, endpoints) are not re-specified. -/
structure StaticState where
  input_desc : List (String × PyVal)
  progs : List String
  compiled_progs : List String

/-- `StaticGraphAdapter.__init__`: empty caches, `_input_desc` parsed from
the model's `forward`. -/
def StaticGraphAdapter.init (forward : PyFunc) : StaticState :=
  { input_desc := init_input_desc forward.args forward.shape_hints
    progs := []
    compiled_progs := [] }

/-- The adapter object held by a `Model`: the dynamic adapter keeps no own
state, the static adapter carries a `StaticState`. -/
inductive Adapter where
  | dynamicGraph
  | staticGraph (st : StaticState)

/-- The kind of adapter (which class was instantiated). -/
inductive AdapterKind where
  | dynamicK
  | staticK
deriving DecidableEq

/-- The class of an `Adapter`. -/
def Adapter.kind : Adapter → AdapterKind
  | Adapter.dynamicGraph => AdapterKind.dynamicK
  | Adapter.staticGraph _ => AdapterKind.staticK

/-- The attributes of a `Model` object: `mode`, `_loss_functions`,
`_optimizer`, its subclass's `forward` (signature and hint attribute), and
the adapter chosen at construction.  In Python the adapters hold a back
reference `self.model`; here adapter methods take the `Model` explicitly
and return its updated value. -/
structure Model where
  mode : String
  loss_functions : PyVal
  optimizer : PyVal
  forward : PyFunc
  adapter : Adapter

/-- The message of the readiness assertions in both adapters. -/
def readyMsg : String := "model not ready, please call `model.prepare()` first"

/-- The message of the input-arity assertion in `StaticGraphAdapter._run`. -/
def arityMsg : String :=
  "number of inputs does not match number of arguments of `forward` method"

/-- `StaticGraphAdapter._compile_and_initialize`, restricted to what the
repository decides itself: the place (CPU, or CUDA on the first device id
for `'gpu'` with a list/tuple of ids), the data-parallel wrapping on GPU,
and the `raise "device not supported"` for any other device.  Executor
creation and incremental startup are framework calls and are not
re-specified. -/
def StaticGraphAdapter.compile_and_initialize (device : String)
    (device_ids : PyVal) : Except PyErr (Place × List Event) :=
  if pyLower device == "cpu" then
    Except.ok (Place.cpu, [])
  else if pyLower device == "gpu" && is_list_or_tuple device_ids then
    match seqItems device_ids with
    | [] => Except.error (PyErr.indexError "list index out of range")
    | x :: _ => Except.ok (Place.cuda x, [Event.dataParallel])
  else
    Except.error (PyErr.raisedStr "device not supported")

/-- The compiled-program cache key of `_run`:
`'_'.join([self.mode] + sorted([str(i) for i in device_ids]))`. -/
def progHashOf (mode : String) (items : List PyVal) : String :=
  String.intercalate "_" (mode :: sortStrs (items.map py_str))

/-- The tail of `StaticGraphAdapter._run` after the program for the mode
exists: iterate `device_ids` to build the sorted cache key, compile (and
initialize) on a cache miss, then run the executor.  `st1`/`ev1` are the
state and events of the program-construction step.  Feed construction and
the executor itself are framework calls; the fetched outputs are opaque. -/
def StaticGraphAdapter.runExec (mode : String) (st1 : StaticState)
    (ev1 : List Event) (device : String) (device_ids : PyVal) :
    StaticState × List Event × Except PyErr PyVal :=
  match py_iter device_ids with
  | Except.error e => (st1, ev1, Except.error e)
  | Except.ok items =>
    if st1.compiled_progs.contains (progHashOf mode items) then
      (st1, ev1 ++ [Event.executed mode], Except.ok (PyVal.obj "fetched"))
    else
      match StaticGraphAdapter.compile_and_initialize device device_ids with
      | Except.error e => (st1, ev1, Except.error e)
      | Except.ok (place, ev2) =>
        ({ st1 with
            compiled_progs := st1.compiled_progs ++ [progHashOf mode items] },
         ev1 ++ [Event.compiled (progHashOf mode items) place] ++ ev2
             ++ [Event.executed mode],
         Except.ok (PyVal.obj "fetched"))

/-- `StaticGraphAdapter._run`: normalise `inputs` with `to_list` (labels
are likewise normalised, but only feed the executor, which is framework
territory), assert the input arity against `_input_desc`, build the
program for the current mode if not cached, then `runExec`. -/
def StaticGraphAdapter.run (m : Model) (st : StaticState) (inputs : PyVal)
    (labels : Option PyVal) (device : String) (device_ids : PyVal) :
    StaticState × List Event × Except PyErr PyVal :=
  if (seqItems (to_list inputs)).length ≠ st.input_desc.length then
    (st, [], Except.error (PyErr.assertionError arityMsg))
  else if st.progs.contains m.mode then
    StaticGraphAdapter.runExec m.mode st [] device device_ids
  else
    StaticGraphAdapter.runExec m.mode
      { st with progs := st.progs ++ [m.mode] }
      [Event.madeProgram m.mode] device device_ids

/-- `StaticGraphAdapter.train`: assert readiness, set `mode` (through the
mode setter, which writes `model.mode`), then `_run` with labels. -/
def StaticGraphAdapter.train (m : Model) (st : StaticState)
    (inputs labels : PyVal) (device : String) (device_ids : PyVal) :
    Model × StaticState × List Event × Except PyErr PyVal :=
  if truthy m.optimizer && truthy m.loss_functions then
    let m1 := { m with mode := "train" }
    let r := StaticGraphAdapter.run m1 st inputs (some labels) device device_ids
    (m1, r.1, r.2.1, r.2.2)
  else
    (m, st, [], Except.error (PyErr.assertionError readyMsg))

/-- `StaticGraphAdapter.eval`: assert a truthy `_loss_functions`, set
`mode`, `_run` with labels. -/
def StaticGraphAdapter.eval (m : Model) (st : StaticState)
    (inputs labels : PyVal) (device : String) (device_ids : PyVal) :
    Model × StaticState × List Event × Except PyErr PyVal :=
  if truthy m.loss_functions then
    let m1 := { m with mode := "eval" }
    let r := StaticGraphAdapter.run m1 st inputs (some labels) device device_ids
    (m1, r.1, r.2.1, r.2.2)
  else
    (m, st, [], Except.error (PyErr.assertionError readyMsg))

/-- `StaticGraphAdapter.test`: no readiness check; set `mode`, `_run`
without labels. -/
def StaticGraphAdapter.test (m : Model) (st : StaticState) (inputs : PyVal)
    (device : String) (device_ids : PyVal) :
    Model × StaticState × List Event × Except PyErr PyVal :=
  let m1 := { m with mode := "test" }
  let r := StaticGraphAdapter.run m1 st inputs Option.none device device_ids
  (m1, r.1, r.2.1, r.2.2)

/-- `StaticGraphAdapter.save`: persist from the cached `'train'` program
when it exists and an optimizer is set; otherwise print a notice and
persist from the main program. -/
def StaticGraphAdapter.save (m : Model) (st : StaticState) (path : String) :
    Model × StaticState × List Event × Except PyErr PyVal :=
  if st.progs.contains "train" && !(isNone m.optimizer) then
    (m, st, [Event.savedStatic (ProgChoice.cachedProg "train") path],
     Except.ok PyVal.none)
  else
    (m, st, [Event.printed "optimizer not initialized, save parameters only",
             Event.savedStatic ProgChoice.mainProg path],
     Except.ok PyVal.none)

/-- `StaticGraphAdapter.load`: `fluid.load` on the main program (a
framework call). -/
def StaticGraphAdapter.load (m : Model) (st : StaticState) (path : String) :
    Model × StaticState × List Event × Except PyErr PyVal :=
  (m, st, [Event.loadedStatic path], Except.ok PyVal.none)

/-- `DynamicGraphAdapter.train`: assert readiness, switch the layer to
train mode, set `mode`, then forward / loss / backward / minimize /
clear_gradients — all framework calls, recorded as events; the returned
losses are opaque framework values. -/
def DynamicGraphAdapter.train (m : Model) (inputs labels : PyVal)
    (device : String) (device_ids : PyVal) :
    Model × List Event × Except PyErr PyVal :=
  if truthy m.optimizer && truthy m.loss_functions then
    let m1 := { m with mode := "train" }
    (m1,
     [Event.layerTrainCalled, Event.forwardCalled, Event.backwardCalled,
      Event.minimizeCalled, Event.clearGradientsCalled],
     Except.ok (PyVal.obj "losses"))
  else
    (m, [], Except.error (PyErr.assertionError readyMsg))

/-- `DynamicGraphAdapter.eval`: assert a truthy `_loss_functions`, switch
the layer to train mode (as the source does), set `mode`, forward and
compute losses. -/
def DynamicGraphAdapter.eval (m : Model) (inputs labels : PyVal)
    (device : String) (device_ids : PyVal) :
    Model × List Event × Except PyErr PyVal :=
  if truthy m.loss_functions then
    let m1 := { m with mode := "eval" }
    (m1, [Event.layerTrainCalled, Event.forwardCalled],
     Except.ok (PyVal.obj "losses"))
  else
    (m, [], Except.error (PyErr.assertionError readyMsg))

/-- `DynamicGraphAdapter.test`: no readiness check; set `mode` and
forward. -/
def DynamicGraphAdapter.test (m : Model) (inputs : PyVal) (device : String)
    (device_ids : PyVal) : Model × List Event × Except PyErr PyVal :=
  let m1 := { m with mode := "test" }
  (m1, [Event.layerTrainCalled, Event.forwardCalled],
   Except.ok (PyVal.obj "outputs"))

/-- `DynamicGraphAdapter.save`: always save the model's state dict; then,
when no optimizer is set, print a notice and return; otherwise save the
optimizer state only when its `state_dict()` is truthy (non-empty). -/
def DynamicGraphAdapter.save (m : Model) (path : String) :
    Model × List Event × Except PyErr PyVal :=
  let ev0 := [Event.savedDygraphParams path]
  if isNone m.optimizer then
    (m, ev0 ++ [Event.printed "model does not have an optimizer, save parameters only"],
     Except.ok PyVal.none)
  else
    match py_state_dict m.optimizer with
    | Except.error e => (m, ev0, Except.error e)
    | Except.ok sd =>
      if sd.isEmpty then (m, ev0, Except.ok PyVal.none)
      else (m, ev0 ++ [Event.savedDygraphOptim path], Except.ok PyVal.none)

/-- `DynamicGraphAdapter.load`: `fluid.load_dygraph` plus `set_dict` —
framework calls on external checkpoint data, recorded as one event. -/
def DynamicGraphAdapter.load (m : Model) (path : String) :
    Model × List Event × Except PyErr PyVal :=
  (m, [Event.loadedDygraph path], Except.ok PyVal.none)

/-- `Model.__init__`: mode starts as `'train'`, `_loss_functions` as the
empty list, `_optimizer` as `None`, and the adapter is chosen once from
`in_dygraph_mode()`. -/
def Model.init (in_dygraph_mode : Bool) (forward : PyFunc) : Model :=
  { mode := "train"
    loss_functions := PyVal.list []
    optimizer := PyVal.none
    forward := forward
    adapter :=
      if in_dygraph_mode then Adapter.dynamicGraph
      else Adapter.staticGraph (StaticGraphAdapter.init forward) }

/-- `Model.train`: `return self._adapter.train(*args, **kwargs)`. -/
def Model.train (m : Model) (inputs labels : PyVal) (device : String)
    (device_ids : PyVal) : Model × List Event × Except PyErr PyVal :=
  match m.adapter with
  | Adapter.dynamicGraph =>
    DynamicGraphAdapter.train m inputs labels device device_ids
  | Adapter.staticGraph st =>
    let r := StaticGraphAdapter.train m st inputs labels device device_ids
    ({ r.1 with adapter := Adapter.staticGraph r.2.1 }, r.2.2.1, r.2.2.2)

/-- `Model.eval`: `return self._adapter.eval(*args, **kwargs)`. -/
def Model.eval (m : Model) (inputs labels : PyVal) (device : String)
    (device_ids : PyVal) : Model × List Event × Except PyErr PyVal :=
  match m.adapter with
  | Adapter.dynamicGraph =>
    DynamicGraphAdapter.eval m inputs labels device device_ids
  | Adapter.staticGraph st =>
    let r := StaticGraphAdapter.eval m st inputs labels device device_ids
    ({ r.1 with adapter := Adapter.staticGraph r.2.1 }, r.2.2.1, r.2.2.2)

/-- `Model.test`: `return self._adapter.test(*args, **kwargs)`. -/
def Model.test (m : Model) (inputs : PyVal) (device : String)
    (device_ids : PyVal) : Model × List Event × Except PyErr PyVal :=
  match m.adapter with
  | Adapter.dynamicGraph =>
    DynamicGraphAdapter.test m inputs device device_ids
  | Adapter.staticGraph st =>
    let r := StaticGraphAdapter.test m st inputs device device_ids
    ({ r.1 with adapter := Adapter.staticGraph r.2.1 }, r.2.2.1, r.2.2.2)

/-- `Model.save`: `return self._adapter.save(*args, **kwargs)`. -/
def Model.save (m : Model) (path : String) :
    Model × List Event × Except PyErr PyVal :=
  match m.adapter with
  | Adapter.dynamicGraph => DynamicGraphAdapter.save m path
  | Adapter.staticGraph st =>
    let r := StaticGraphAdapter.save m st path
    ({ r.1 with adapter := Adapter.staticGraph r.2.1 }, r.2.2.1, r.2.2.2)

/-- `Model.load`: `return self._adapter.load(*args, **kwargs)`. -/
def Model.load (m : Model) (path : String) :
    Model × List Event × Except PyErr PyVal :=
  match m.adapter with
  | Adapter.dynamicGraph => DynamicGraphAdapter.load m path
  | Adapter.staticGraph st =>
    let r := StaticGraphAdapter.load m st path
    ({ r.1 with adapter := Adapter.staticGraph r.2.1 }, r.2.2.1, r.2.2.2)

/-- `Model.prepare`: store the optimizer and `to_list` of the loss
functions. -/
def Model.prepare (m : Model) (optimizer loss_functions : PyVal) : Model :=
  { m with optimizer := optimizer, loss_functions := to_list loss_functions }

/-- A concrete `forward` signature `(self, x)` with no shape hints. -/
def fwPlain : PyFunc := { args := ["self", "x"], shape_hints := Option.none }

/-- `fwPlain` decorated with the hint `self=(1,)`, which the decorator
accepts because `self` is among `extract_args(forward)`. -/
def fwSelfHint : PyFunc :=
  { args := ["self", "x"]
    shape_hints := some [("self", PyVal.tuple [PyVal.int 1])] }

/-- A truthy optimizer object with a non-empty `state_dict`. -/
def optVal : PyVal := PyVal.optObj [("lr", PyVal.int 1)]

/-- A fresh dynamic-mode model over `fwPlain`. -/
def mDyn0 : Model := Model.init true fwPlain

/-- The dynamic model after `prepare(optVal, 'cross_entropy')`. -/
def mDynReady : Model := Model.prepare mDyn0 optVal (PyVal.str "cross_entropy")

/-- A fresh static-mode model over `fwPlain`. -/
def mStat0 : Model := Model.init false fwPlain

/-- The static model after `prepare(optVal, 'cross_entropy')`. -/
def mStatReady : Model := Model.prepare mStat0 optVal (PyVal.str "cross_entropy")

/-- A dynamic model prepared with an optimizer whose state dict is empty. -/
def mOptEmptySD : Model :=
  Model.prepare mDyn0 (PyVal.optObj []) (PyVal.str "cross_entropy")

/-- First GPU `test` call on the fresh static model, with device ids `[0]`. -/
def gpuCall1 : Model × List Event × Except PyErr PyVal :=
  Model.test mStat0 (PyVal.list [PyVal.int 5]) "GPU" (PyVal.list [PyVal.int 0])

/-- Second GPU `test` call, hitting the compiled-program cache with the
string `"0"` as `device_ids`. -/
def gpuCall2 : Model × List Event × Except PyErr PyVal :=
  Model.test gpuCall1.1 (PyVal.list [PyVal.int 5]) "GPU" (PyVal.str "0")

/-- Does every shape-hint name of `fw` name a non-`self` argument?  (Always
true when there are no hints.) -/
def hints_cover_nonself (fw : PyFunc) : Bool :=
  match fw.shape_hints with
  | Option.none => true
  | some hs =>
    hs.all fun h => (fw.args.filter fun a => a != "self").contains h.1

/-- First value bound to a key in an association list (`find?`-based,
first occurrence wins, as for iteration order of an `OrderedDict`). -/
def lookupVal (l : List (String × PyVal)) (k : String) : Option PyVal :=
  (l.find? fun kv => kv.1 == k).map Prod.snd

/-- C9: `to_list` returns lists/tuples unchanged and wraps anything else in
a singleton list; it is idempotent, and on non-list/non-tuple input its
result is a non-empty list. -/
theorem to_list_spec_c9 (v : PyVal) :
    (is_list_or_tuple v = true → to_list v = v) ∧
    (is_list_or_tuple v = false → to_list v = PyVal.list [v]) ∧
    to_list (to_list v) = to_list v ∧
    (is_list_or_tuple v = false →
      ∃ xs, to_list v = PyVal.list xs ∧ xs ≠ []) := by
  cases v <;>
    refine ⟨?_, ?_, ?_, ?_⟩ <;>
    simp [to_list, is_list_or_tuple]

/-- C9 witness: `to_list` at the concrete non-list value `7`. -/
theorem to_list_spec_c9_witness :
    to_list (PyVal.int 7) = PyVal.list [PyVal.int 7] :=
  (to_list_spec_c9 (PyVal.int 7)).2.1 rfl

/-- The `Model` component of `StaticGraphAdapter.train` is the input model
with `mode := 'train'` when the readiness assertion passes, and unchanged
otherwise. -/
theorem static_train_fst (m : Model) (st : StaticState)
    (inputs labels : PyVal) (device : String) (device_ids : PyVal) :
    (StaticGraphAdapter.train m st inputs labels device device_ids).1
      = if truthy m.optimizer && truthy m.loss_functions then
          { m with mode := "train" } else m := by
  unfold StaticGraphAdapter.train
  split <;> rfl

/-- The `Model` component of `StaticGraphAdapter.eval`. -/
theorem static_eval_fst (m : Model) (st : StaticState)
    (inputs labels : PyVal) (device : String) (device_ids : PyVal) :
    (StaticGraphAdapter.eval m st inputs labels device device_ids).1
      = if truthy m.loss_functions then { m with mode := "eval" } else m := by
  unfold StaticGraphAdapter.eval
  split <;> rfl

/-- The `Model` component of `DynamicGraphAdapter.train`. -/
theorem dyn_train_fst (m : Model) (inputs labels : PyVal)
    (device : String) (device_ids : PyVal) :
    (DynamicGraphAdapter.train m inputs labels device device_ids).1
      = if truthy m.optimizer && truthy m.loss_functions then
          { m with mode := "train" } else m := by
  unfold DynamicGraphAdapter.train
  split <;> rfl

/-- The `Model` component of `DynamicGraphAdapter.eval`. -/
theorem dyn_eval_fst (m : Model) (inputs labels : PyVal)
    (device : String) (device_ids : PyVal) :
    (DynamicGraphAdapter.eval m inputs labels device device_ids).1
      = if truthy m.loss_functions then { m with mode := "eval" } else m := by
  unfold DynamicGraphAdapter.eval
  split <;> rfl

/-- The `Model` component of `StaticGraphAdapter.test`. -/
theorem static_test_fst (m : Model) (st : StaticState)
    (inputs : PyVal) (device : String) (device_ids : PyVal) :
    (StaticGraphAdapter.test m st inputs device device_ids).1
      = { m with mode := "test" } := rfl

/-- The `Model` component of `DynamicGraphAdapter.test`. -/
theorem dyn_test_fst (m : Model) (inputs : PyVal)
    (device : String) (device_ids : PyVal) :
    (DynamicGraphAdapter.test m inputs device device_ids).1
      = { m with mode := "test" } := rfl

/-- `StaticGraphAdapter.save` leaves the model unchanged. -/
theorem static_save_fst (m : Model) (st : StaticState)
    (path : String) : (StaticGraphAdapter.save m st path).1 = m := by
  unfold StaticGraphAdapter.save
  split <;> rfl

/-- `DynamicGraphAdapter.save` leaves the model unchanged. -/
theorem dyn_save_fst (m : Model) (path : String) :
    (DynamicGraphAdapter.save m path).1 = m := by
  unfold DynamicGraphAdapter.save
  split
  · rfl
  · cases hsd : py_state_dict m.optimizer with
    | error e => rfl
    | ok sd => by_cases hemp : sd.isEmpty <;> simp [hemp]

/-- `StaticGraphAdapter.load` leaves the model unchanged. -/
theorem static_load_fst (m : Model) (st : StaticState)
    (path : String) : (StaticGraphAdapter.load m st path).1 = m := rfl

/-- `DynamicGraphAdapter.load` leaves the model unchanged. -/
theorem dyn_load_fst (m : Model) (path : String) :
    (DynamicGraphAdapter.load m path).1 = m := rfl

/-- C1: construction selects exactly one adapter from the execution-mode
flag (`DynamicGraphAdapter` when `in_dygraph_mode()`, `StaticGraphAdapter`
otherwise), the two choices differ, and no `Model` method ever changes the
chosen adapter class. -/
theorem adapter_choice_c1 (b : Bool) (fw : PyFunc) (m : Model)
    (inputs labels opt lfs device_ids : PyVal) (device path : String) :
    (Model.init b fw).adapter.kind
        = (if b then AdapterKind.dynamicK else AdapterKind.staticK) ∧
    (Model.init true fw).adapter.kind ≠ (Model.init false fw).adapter.kind ∧
    (Model.train m inputs labels device device_ids).1.adapter.kind
        = m.adapter.kind ∧
    (Model.eval m inputs labels device device_ids).1.adapter.kind
        = m.adapter.kind ∧
    (Model.test m inputs device device_ids).1.adapter.kind
        = m.adapter.kind ∧
    (Model.save m path).1.adapter.kind = m.adapter.kind ∧
    (Model.load m path).1.adapter.kind = m.adapter.kind ∧
    (Model.prepare m opt lfs).adapter.kind = m.adapter.kind := by
  refine ⟨?_, ?_, ?_, ?_, ?_, ?_, ?_, ?_⟩
  · cases b <;> rfl
  · simp [Model.init, Adapter.kind]
  · cases h : m.adapter with
    | dynamicGraph =>
      rw [Model.train, h]
      rw [dyn_train_fst]
      split <;> simp [Adapter.kind, h]
    | staticGraph st => rw [Model.train, h]; simp [Adapter.kind, h]
  · cases h : m.adapter with
    | dynamicGraph =>
      rw [Model.eval, h]
      rw [dyn_eval_fst]
      split <;> simp [Adapter.kind, h]
    | staticGraph st => rw [Model.eval, h]; simp [Adapter.kind, h]
  · cases h : m.adapter with
    | dynamicGraph => rw [Model.test, h]; simp [DynamicGraphAdapter.test, Adapter.kind, h]
    | staticGraph st => rw [Model.test, h]; simp [Adapter.kind, h]
  · cases h : m.adapter with
    | dynamicGraph =>
      rw [Model.save, h, dyn_save_fst, h]
    | staticGraph st => rw [Model.save, h]; simp [Adapter.kind, h]
  · cases h : m.adapter with
    | dynamicGraph => rw [Model.load, h]; simp [DynamicGraphAdapter.load, Adapter.kind, h]
    | staticGraph st => rw [Model.load, h]; simp [Adapter.kind, h]
  · simp [Model.prepare]

/-- C2: every `Model` method is a pure pass-through to the adapter of the
same name. For a dynamic adapter the call is literally the adapter call;
for a static adapter the returned events and result are exactly the
adapter's, and the returned model is exactly the adapter's model with the
adapter's updated internal state installed — nothing else is computed or
changed. -/
theorem pass_through_c2 (m : Model) (inputs labels device_ids : PyVal)
    (device path : String) :
    match m.adapter with
    | Adapter.dynamicGraph =>
        Model.train m inputs labels device device_ids
          = DynamicGraphAdapter.train m inputs labels device device_ids ∧
        Model.eval m inputs labels device device_ids
          = DynamicGraphAdapter.eval m inputs labels device device_ids ∧
        Model.test m inputs device device_ids
          = DynamicGraphAdapter.test m inputs device device_ids ∧
        Model.save m path = DynamicGraphAdapter.save m path ∧
        Model.load m path = DynamicGraphAdapter.load m path
    | Adapter.staticGraph st =>
        (Model.train m inputs labels device device_ids).2
          = (StaticGraphAdapter.train m st inputs labels device device_ids).2.2 ∧
        (Model.train m inputs labels device device_ids).1
          = { (StaticGraphAdapter.train m st inputs labels device device_ids).1 with
              adapter := Adapter.staticGraph (StaticGraphAdapter.train m st inputs labels device device_ids).2.1 } ∧
        (Model.eval m inputs labels device device_ids).2
          = (StaticGraphAdapter.eval m st inputs labels device device_ids).2.2 ∧
        (Model.eval m inputs labels device device_ids).1
          = { (StaticGraphAdapter.eval m st inputs labels device device_ids).1 with
              adapter := Adapter.staticGraph (StaticGraphAdapter.eval m st inputs labels device device_ids).2.1 } ∧
        (Model.test m inputs device device_ids).2
          = (StaticGraphAdapter.test m st inputs device device_ids).2.2 ∧
        (Model.test m inputs device device_ids).1
          = { (StaticGraphAdapter.test m st inputs device device_ids).1 with
              adapter := Adapter.staticGraph (StaticGraphAdapter.test m st inputs device device_ids).2.1 } ∧
        (Model.save m path).2 = (StaticGraphAdapter.save m st path).2.2 ∧
        (Model.save m path).1
          = { (StaticGraphAdapter.save m st path).1 with
              adapter := Adapter.staticGraph (StaticGraphAdapter.save m st path).2.1 } ∧
        (Model.load m path).2 = (StaticGraphAdapter.load m st path).2.2 ∧
        (Model.load m path).1
          = { (StaticGraphAdapter.load m st path).1 with
              adapter := Adapter.staticGraph (StaticGraphAdapter.load m st path).2.1 } := by
  cases h : m.adapter with
  | dynamicGraph =>
    refine ⟨?_, ?_, ?_, ?_, ?_⟩ <;>
      simp [Model.train, Model.eval, Model.test, Model.save, Model.load, h]
  | staticGraph st =>
    refine ⟨?_, ?_, ?_, ?_, ?_, ?_, ?_, ?_, ?_, ?_⟩ <;>
      simp [Model.train, Model.eval, Model.test, Model.save, Model.load, h]

/-- C4: `prepare(optimizer, loss_functions)` stores the optimizer, stores
`to_list(loss_functions)` (the value itself when it is a list or tuple,
the singleton list otherwise), and changes no other field. -/
theorem prepare_spec_c4 (m : Model) (optimizer loss_functions : PyVal) :
    (Model.prepare m optimizer loss_functions).optimizer = optimizer ∧
    (Model.prepare m optimizer loss_functions).loss_functions
        = to_list loss_functions ∧
    (is_list_or_tuple loss_functions = true →
      (Model.prepare m optimizer loss_functions).loss_functions
        = loss_functions) ∧
    (is_list_or_tuple loss_functions = false →
      (Model.prepare m optimizer loss_functions).loss_functions
        = PyVal.list [loss_functions]) ∧
    (Model.prepare m optimizer loss_functions).mode = m.mode ∧
    (Model.prepare m optimizer loss_functions).adapter = m.adapter ∧
    (Model.prepare m optimizer loss_functions).forward = m.forward := by
  refine ⟨rfl, rfl, ?_, ?_, rfl, rfl, rfl⟩ <;>
    intro hv <;> simp [Model.prepare, to_list, hv]

/-- C4 witness: `prepare` on the fresh dynamic model with a non-list loss
function wraps it in a singleton list. -/
theorem prepare_spec_c4_witness :
    (Model.prepare mDyn0 optVal (PyVal.str "cross_entropy")).loss_functions
      = PyVal.list [PyVal.str "cross_entropy"] :=
  (prepare_spec_c4 mDyn0 optVal (PyVal.str "cross_entropy")).2.2.2.1 rfl

/-- `py_iter` can only fail with a `TypeError`. -/
theorem py_iter_error_shape (v : PyVal) (e : PyErr)
    (h : py_iter v = Except.error e) : ∃ s, e = PyErr.typeError s := by
  cases v <;> simp [py_iter] at h <;> exact ⟨_, h.symm⟩

/-- `_compile_and_initialize` can only fail with the `IndexError` of
`device_ids[0]` on an empty list/tuple or the raised string
`"device not supported"`. -/
theorem compile_error_shape (device : String) (device_ids : PyVal)
    (e : PyErr)
    (h : StaticGraphAdapter.compile_and_initialize device device_ids
          = Except.error e) :
    e = PyErr.indexError "list index out of range" ∨
    e = PyErr.raisedStr "device not supported" := by
  unfold StaticGraphAdapter.compile_and_initialize at h
  split at h
  · exact Except.noConfusion h
  · split at h
    · cases hs : seqItems device_ids with
      | nil => rw [hs] at h; injection h with h1; exact Or.inl h1.symm
      | cons x xs => rw [hs] at h; exact Except.noConfusion h
    · injection h with h1; exact Or.inr h1.symm

/-- `_run` when the arity assertion fails: unchanged state, no events,
the arity `AssertionError`. -/
theorem StaticGraphAdapter.run_arity (m : Model) (st : StaticState)
    (inputs : PyVal) (labels : Option PyVal) (device : String)
    (device_ids : PyVal)
    (h : (seqItems (to_list inputs)).length ≠ st.input_desc.length) :
    StaticGraphAdapter.run m st inputs labels device device_ids
      = (st, [], Except.error (PyErr.assertionError arityMsg)) := by
  simp [StaticGraphAdapter.run, h]

/-- `_run` when the arity assertion passes and the program for the mode is
already cached. -/
theorem StaticGraphAdapter.run_cached (m : Model) (st : StaticState)
    (inputs : PyVal) (labels : Option PyVal) (device : String)
    (device_ids : PyVal)
    (hlen : (seqItems (to_list inputs)).length = st.input_desc.length)
    (hpc : st.progs.contains m.mode = true) :
    StaticGraphAdapter.run m st inputs labels device device_ids
      = StaticGraphAdapter.runExec m.mode st [] device device_ids := by
  have hpcm : m.mode ∈ st.progs := by simpa using hpc
  simp [StaticGraphAdapter.run, hlen, hpcm]

/-- `_run` when the arity assertion passes and the program for the mode is
built first. -/
theorem StaticGraphAdapter.run_fresh (m : Model) (st : StaticState)
    (inputs : PyVal) (labels : Option PyVal) (device : String)
    (device_ids : PyVal)
    (hlen : (seqItems (to_list inputs)).length = st.input_desc.length)
    (hpc : st.progs.contains m.mode = false) :
    StaticGraphAdapter.run m st inputs labels device device_ids
      = StaticGraphAdapter.runExec m.mode
          { st with progs := st.progs ++ [m.mode] }
          [Event.madeProgram m.mode] device device_ids := by
  have hpcm : m.mode ∉ st.progs := by simpa using hpc
  simp [StaticGraphAdapter.run, hlen, hpcm]

/-- The result of `runExec` is a `TypeError` from iterating `device_ids`,
one of the two `_compile_and_initialize` failures, or the fetched
outputs. -/
theorem StaticGraphAdapter.runExec_result (mode : String) (st1 : StaticState)
    (ev1 : List Event) (device : String) (device_ids : PyVal) :
    (∃ s, (StaticGraphAdapter.runExec mode st1 ev1 device device_ids).2.2
        = Except.error (PyErr.typeError s)) ∨
    (StaticGraphAdapter.runExec mode st1 ev1 device device_ids).2.2
        = Except.error (PyErr.indexError "list index out of range") ∨
    (StaticGraphAdapter.runExec mode st1 ev1 device device_ids).2.2
        = Except.error (PyErr.raisedStr "device not supported") ∨
    (StaticGraphAdapter.runExec mode st1 ev1 device device_ids).2.2
        = Except.ok (PyVal.obj "fetched") := by
  cases hit : py_iter device_ids with
  | error e =>
    obtain ⟨s, hs⟩ := py_iter_error_shape device_ids e hit
    subst hs
    refine Or.inl ⟨s, ?_⟩
    simp [StaticGraphAdapter.runExec, hit]
  | ok items =>
    by_cases hch : progHashOf mode items ∈ st1.compiled_progs
    · refine Or.inr (Or.inr (Or.inr ?_))
      simp [StaticGraphAdapter.runExec, hit, hch]
    · cases hci : StaticGraphAdapter.compile_and_initialize device device_ids with
      | error e =>
        rcases compile_error_shape device device_ids e hci with he | he <;>
          subst he
        · refine Or.inr (Or.inl ?_)
          simp [StaticGraphAdapter.runExec, hit, hch, hci]
        · refine Or.inr (Or.inr (Or.inl ?_))
          simp [StaticGraphAdapter.runExec, hit, hch, hci]
      | ok pe =>
        obtain ⟨place, ev2⟩ := pe
        refine Or.inr (Or.inr (Or.inr ?_))
        simp [StaticGraphAdapter.runExec, hit, hch, hci]

/-- The result of `_run` is either the arity `AssertionError` or one of
the `runExec` outcomes. -/
theorem StaticGraphAdapter.run_result (m : Model) (st : StaticState)
    (inputs : PyVal) (labels : Option PyVal) (device : String)
    (device_ids : PyVal) :
    (StaticGraphAdapter.run m st inputs labels device device_ids).2.2
        = Except.error (PyErr.assertionError arityMsg) ∨
    (∃ s, (StaticGraphAdapter.run m st inputs labels device device_ids).2.2
        = Except.error (PyErr.typeError s)) ∨
    (StaticGraphAdapter.run m st inputs labels device device_ids).2.2
        = Except.error (PyErr.indexError "list index out of range") ∨
    (StaticGraphAdapter.run m st inputs labels device device_ids).2.2
        = Except.error (PyErr.raisedStr "device not supported") ∨
    (StaticGraphAdapter.run m st inputs labels device device_ids).2.2
        = Except.ok (PyVal.obj "fetched") := by
  by_cases hlen : (seqItems (to_list inputs)).length = st.input_desc.length
  · by_cases hpc : st.progs.contains m.mode = true
    · rw [StaticGraphAdapter.run_cached m st inputs labels device device_ids
        hlen hpc]
      exact Or.inr (StaticGraphAdapter.runExec_result m.mode st [] device
        device_ids)
    · rw [StaticGraphAdapter.run_fresh m st inputs labels device device_ids
        hlen (Bool.not_eq_true _ ▸ hpc)]
      exact Or.inr (StaticGraphAdapter.runExec_result m.mode
        { st with progs := st.progs ++ [m.mode] } [Event.madeProgram m.mode]
        device device_ids)
  · rw [StaticGraphAdapter.run_arity m st inputs labels device device_ids hlen]
    exact Or.inl rfl

/-- `StaticGraphAdapter.train` when the readiness assertion passes. -/
theorem static_train_eq_pos (m : Model) (st : StaticState)
    (inputs labels : PyVal) (device : String) (device_ids : PyVal)
    (hc : (truthy m.optimizer && truthy m.loss_functions) = true) :
    StaticGraphAdapter.train m st inputs labels device device_ids
      = ({ m with mode := "train" },
         StaticGraphAdapter.run { m with mode := "train" } st inputs
           (some labels) device device_ids) := by
  simp [StaticGraphAdapter.train, hc]

/-- `StaticGraphAdapter.train` when the readiness assertion fails. -/
theorem static_train_eq_neg (m : Model) (st : StaticState)
    (inputs labels : PyVal) (device : String) (device_ids : PyVal)
    (hc : ¬ (truthy m.optimizer && truthy m.loss_functions) = true) :
    StaticGraphAdapter.train m st inputs labels device device_ids
      = (m, st, [], Except.error (PyErr.assertionError readyMsg)) := by
  simp [StaticGraphAdapter.train, hc]

/-- `StaticGraphAdapter.eval` when the readiness assertion passes. -/
theorem static_eval_eq_pos (m : Model) (st : StaticState)
    (inputs labels : PyVal) (device : String) (device_ids : PyVal)
    (hc : truthy m.loss_functions = true) :
    StaticGraphAdapter.eval m st inputs labels device device_ids
      = ({ m with mode := "eval" },
         StaticGraphAdapter.run { m with mode := "eval" } st inputs
           (some labels) device device_ids) := by
  simp [StaticGraphAdapter.eval, hc]

/-- `StaticGraphAdapter.eval` when the readiness assertion fails. -/
theorem static_eval_eq_neg (m : Model) (st : StaticState)
    (inputs labels : PyVal) (device : String) (device_ids : PyVal)
    (hc : ¬ truthy m.loss_functions = true) :
    StaticGraphAdapter.eval m st inputs labels device device_ids
      = (m, st, [], Except.error (PyErr.assertionError readyMsg)) := by
  simp [StaticGraphAdapter.eval, hc]

/-- `_run` never yields the readiness `AssertionError`: that message can
only come from the `train`/`eval` entry assertions. -/
theorem StaticGraphAdapter.run_not_ready (m : Model) (st : StaticState)
    (inputs : PyVal) (labels : Option PyVal) (device : String)
    (device_ids : PyVal) :
    (StaticGraphAdapter.run m st inputs labels device device_ids).2.2
      ≠ Except.error (PyErr.assertionError readyMsg) := by
  intro hc
  have hres := StaticGraphAdapter.run_result m st inputs labels device
    device_ids
  rw [hc] at hres
  rcases hres with h | ⟨s, h⟩ | h | h | h
  · injection h with h1
    injection h1 with h2
    exact absurd h2 (by decide)
  · injection h with h1
    exact PyErr.noConfusion h1
  · injection h with h1
    exact PyErr.noConfusion h1
  · injection h with h1
    exact PyErr.noConfusion h1
  · exact Except.noConfusion h

/-- `DynamicGraphAdapter.train` when the readiness assertion passes. -/
theorem dyn_train_eq_pos (m : Model) (inputs labels : PyVal)
    (device : String) (device_ids : PyVal)
    (hc : (truthy m.optimizer && truthy m.loss_functions) = true) :
    DynamicGraphAdapter.train m inputs labels device device_ids
      = ({ m with mode := "train" },
         [Event.layerTrainCalled, Event.forwardCalled, Event.backwardCalled,
          Event.minimizeCalled, Event.clearGradientsCalled],
         Except.ok (PyVal.obj "losses")) := by
  simp [DynamicGraphAdapter.train, hc]

/-- `DynamicGraphAdapter.train` when the readiness assertion fails. -/
theorem dyn_train_eq_neg (m : Model) (inputs labels : PyVal)
    (device : String) (device_ids : PyVal)
    (hc : ¬ (truthy m.optimizer && truthy m.loss_functions) = true) :
    DynamicGraphAdapter.train m inputs labels device device_ids
      = (m, [], Except.error (PyErr.assertionError readyMsg)) := by
  simp [DynamicGraphAdapter.train, hc]

/-- `DynamicGraphAdapter.eval` when the readiness assertion passes. -/
theorem dyn_eval_eq_pos (m : Model) (inputs labels : PyVal)
    (device : String) (device_ids : PyVal)
    (hc : truthy m.loss_functions = true) :
    DynamicGraphAdapter.eval m inputs labels device device_ids
      = ({ m with mode := "eval" },
         [Event.layerTrainCalled, Event.forwardCalled],
         Except.ok (PyVal.obj "losses")) := by
  simp [DynamicGraphAdapter.eval, hc]

/-- `DynamicGraphAdapter.eval` when the readiness assertion fails. -/
theorem dyn_eval_eq_neg (m : Model) (inputs labels : PyVal)
    (device : String) (device_ids : PyVal)
    (hc : ¬ truthy m.loss_functions = true) :
    DynamicGraphAdapter.eval m inputs labels device device_ids
      = (m, [], Except.error (PyErr.assertionError readyMsg)) := by
  simp [DynamicGraphAdapter.eval, hc]

/-- C3: in both adapters `train` raises the readiness `AssertionError`
exactly when the optimizer is not truthy or the loss-function list is
empty (not truthy); `eval` raises it exactly when the loss-function list
is empty, regardless of the optimizer; `test` never raises it. -/
theorem readiness_assert_c3 (m : Model) (st : StaticState)
    (lfs : List PyVal) (inputs labels : PyVal) (device : String)
    (device_ids : PyVal) :
    ((StaticGraphAdapter.train m st inputs labels device device_ids).2.2.2
        = Except.error (PyErr.assertionError readyMsg)
      ↔ ¬(truthy m.optimizer = true ∧ truthy m.loss_functions = true)) ∧
    ((DynamicGraphAdapter.train m inputs labels device device_ids).2.2
        = Except.error (PyErr.assertionError readyMsg)
      ↔ ¬(truthy m.optimizer = true ∧ truthy m.loss_functions = true)) ∧
    ((StaticGraphAdapter.eval m st inputs labels device device_ids).2.2.2
        = Except.error (PyErr.assertionError readyMsg)
      ↔ truthy m.loss_functions = false) ∧
    ((DynamicGraphAdapter.eval m inputs labels device device_ids).2.2
        = Except.error (PyErr.assertionError readyMsg)
      ↔ truthy m.loss_functions = false) ∧
    (m.loss_functions = PyVal.list lfs →
      (((StaticGraphAdapter.eval m st inputs labels device device_ids).2.2.2
          = Except.error (PyErr.assertionError readyMsg)) ↔ lfs = [])) ∧
    (StaticGraphAdapter.test m st inputs device device_ids).2.2.2
        ≠ Except.error (PyErr.assertionError readyMsg) ∧
    (DynamicGraphAdapter.test m inputs device device_ids).2.2
        ≠ Except.error (PyErr.assertionError readyMsg) := by
  refine ⟨?_, ?_, ?_, ?_, ?_, ?_, ?_⟩
  · by_cases hc : (truthy m.optimizer && truthy m.loss_functions) = true
    · rw [static_train_eq_pos m st inputs labels device
        device_ids hc]
      constructor
      · intro h
        exact absurd h (StaticGraphAdapter.run_not_ready
          { m with mode := "train" } st inputs (some labels) device device_ids)
      · intro hn
        exact absurd (Bool.and_eq_true _ _ |>.mp hc) hn
    · rw [static_train_eq_neg m st inputs labels device
        device_ids hc]
      exact iff_of_true rfl fun hab =>
        hc ((Bool.and_eq_true _ _).mpr hab)
  · by_cases hc : (truthy m.optimizer && truthy m.loss_functions) = true
    · rw [dyn_train_eq_pos m inputs labels device
        device_ids hc]
      constructor
      · intro h
        exact Except.noConfusion h
      · intro hn
        exact absurd (Bool.and_eq_true _ _ |>.mp hc) hn
    · rw [dyn_train_eq_neg m inputs labels device
        device_ids hc]
      exact iff_of_true rfl fun hab =>
        hc ((Bool.and_eq_true _ _).mpr hab)
  · by_cases hc : truthy m.loss_functions = true
    · rw [static_eval_eq_pos m st inputs labels device
        device_ids hc]
      constructor
      · intro h
        exact absurd h (StaticGraphAdapter.run_not_ready
          { m with mode := "eval" } st inputs (some labels) device device_ids)
      · intro hf
        rw [hc] at hf
        exact Bool.noConfusion hf
    · rw [static_eval_eq_neg m st inputs labels device
        device_ids hc]
      exact iff_of_true rfl (Bool.not_eq_true _ ▸ hc)
  · by_cases hc : truthy m.loss_functions = true
    · rw [dyn_eval_eq_pos m inputs labels device
        device_ids hc]
      constructor
      · intro h
        exact Except.noConfusion h
      · intro hf
        rw [hc] at hf
        exact Bool.noConfusion hf
    · rw [dyn_eval_eq_neg m inputs labels device
        device_ids hc]
      exact iff_of_true rfl (Bool.not_eq_true _ ▸ hc)
  · intro hlf
    by_cases hl : lfs = []
    · subst hl
      have hc : ¬ truthy m.loss_functions = true := by
        rw [hlf]; simp [truthy]
      rw [static_eval_eq_neg m st inputs labels device
        device_ids hc]
      exact iff_of_true rfl rfl
    · have hc : truthy m.loss_functions = true := by
        rw [hlf]; simp [truthy, hl]
      rw [static_eval_eq_pos m st inputs labels device
        device_ids hc]
      constructor
      · intro h
        exact absurd h (StaticGraphAdapter.run_not_ready
          { m with mode := "eval" } st inputs (some labels) device device_ids)
      · intro h
        exact absurd h hl
  · exact StaticGraphAdapter.run_not_ready { m with mode := "test" } st
      inputs Option.none device device_ids
  · intro h
    exact Except.noConfusion h

/-- C3 witness: on the fresh static model (empty loss-function list),
`eval` raises the readiness assertion. -/
theorem readiness_assert_c3_witness :
    (StaticGraphAdapter.eval mStat0 (StaticGraphAdapter.init fwPlain)
        (PyVal.list [PyVal.int 1]) (PyVal.int 0) "CPU" PyVal.none).2.2.2
      = Except.error (PyErr.assertionError readyMsg) :=
  ((readiness_assert_c3 mStat0 (StaticGraphAdapter.init fwPlain) []
      (PyVal.list [PyVal.int 1]) (PyVal.int 0) "CPU"
      PyVal.none).2.2.2.2.1 rfl).mpr rfl

/-- The mode after `Model.train`. -/
theorem Model.train_mode (m : Model) (inputs labels : PyVal)
    (device : String) (device_ids : PyVal) :
    (Model.train m inputs labels device device_ids).1.mode
      = if (truthy m.optimizer && truthy m.loss_functions) = true
        then "train" else m.mode := by
  cases h : m.adapter with
  | dynamicGraph =>
    rw [Model.train, h, dyn_train_fst]
    split <;> rfl
  | staticGraph st =>
    rw [Model.train, h]
    show (StaticGraphAdapter.train m st inputs labels device device_ids).1.mode
      = _
    rw [static_train_fst]
    split <;> rfl

/-- The mode after `Model.eval`. -/
theorem Model.eval_mode (m : Model) (inputs labels : PyVal)
    (device : String) (device_ids : PyVal) :
    (Model.eval m inputs labels device device_ids).1.mode
      = if truthy m.loss_functions = true then "eval" else m.mode := by
  cases h : m.adapter with
  | dynamicGraph =>
    rw [Model.eval, h, dyn_eval_fst]
    split <;> rfl
  | staticGraph st =>
    rw [Model.eval, h]
    show (StaticGraphAdapter.eval m st inputs labels device device_ids).1.mode
      = _
    rw [static_eval_fst]
    split <;> rfl

/-- The mode after `Model.test`. -/
theorem Model.test_mode (m : Model) (inputs : PyVal) (device : String)
    (device_ids : PyVal) :
    (Model.test m inputs device device_ids).1.mode = "test" := by
  cases h : m.adapter with
  | dynamicGraph => rw [Model.test, h, dyn_test_fst]
  | staticGraph st =>
    rw [Model.test, h]
    show (StaticGraphAdapter.test m st inputs device device_ids).1.mode = _
    rw [static_test_fst]

/-- `Model.save` does not change the mode. -/
theorem Model.save_mode (m : Model) (path : String) :
    (Model.save m path).1.mode = m.mode := by
  cases h : m.adapter with
  | dynamicGraph => rw [Model.save, h, dyn_save_fst]
  | staticGraph st =>
    rw [Model.save, h]
    show (StaticGraphAdapter.save m st path).1.mode = _
    rw [static_save_fst]

/-- `Model.load` does not change the mode. -/
theorem Model.load_mode (m : Model) (path : String) :
    (Model.load m path).1.mode = m.mode := by
  cases h : m.adapter with
  | dynamicGraph => rw [Model.load, h, dyn_load_fst]
  | staticGraph st =>
    rw [Model.load, h]
    show (StaticGraphAdapter.load m st path).1.mode = _
    rw [static_load_fst]

/-- C7: the mode is `'train'` on construction; in both adapters every
entry into `train`/`eval`/`test` that passes its readiness assertion sets
the mode to the method's own name (before the computation runs — the mode
change survives even when `_run` later fails); `save`, `load` and
`prepare` never change the mode; and the mode stays in
`{'train', 'eval', 'test'}`. -/
theorem mode_invariant_c7 (b : Bool) (fw : PyFunc) (m : Model)
    (inputs labels opt lfs device_ids : PyVal) (device path : String)
    (hm : m.mode = "train" ∨ m.mode = "eval" ∨ m.mode = "test") :
    (Model.init b fw).mode = "train" ∧
    (Model.train m inputs labels device device_ids).1.mode
        = (if (truthy m.optimizer && truthy m.loss_functions) = true
           then "train" else m.mode) ∧
    (Model.eval m inputs labels device device_ids).1.mode
        = (if truthy m.loss_functions = true then "eval" else m.mode) ∧
    (Model.test m inputs device device_ids).1.mode = "test" ∧
    (Model.save m path).1.mode = m.mode ∧
    (Model.load m path).1.mode = m.mode ∧
    (Model.prepare m opt lfs).mode = m.mode ∧
    (∀ m1 : Model,
      m1 = (Model.train m inputs labels device device_ids).1 ∨
      m1 = (Model.eval m inputs labels device device_ids).1 ∨
      m1 = (Model.test m inputs device device_ids).1 ∨
      m1 = (Model.save m path).1 ∨
      m1 = (Model.load m path).1 ∨
      m1 = Model.prepare m opt lfs →
      m1.mode = "train" ∨ m1.mode = "eval" ∨ m1.mode = "test") := by
  refine ⟨rfl, Model.train_mode m inputs labels device device_ids,
    Model.eval_mode m inputs labels device device_ids,
    Model.test_mode m inputs device device_ids,
    Model.save_mode m path, Model.load_mode m path, rfl, ?_⟩
  intro m1 hm1
  rcases hm1 with h | h | h | h | h | h <;> subst h
  · rw [Model.train_mode m inputs labels device device_ids]
    split
    · exact Or.inl rfl
    · exact hm
  · rw [Model.eval_mode m inputs labels device device_ids]
    split
    · exact Or.inr (Or.inl rfl)
    · exact hm
  · rw [Model.test_mode m inputs device device_ids]
    exact Or.inr (Or.inr rfl)
  · rw [Model.save_mode m path]
    exact hm
  · rw [Model.load_mode m path]
    exact hm
  · exact hm

/-- C7 witness: on the prepared dynamic model (whose mode is `'train'`),
`test` switches the mode to `'test'` and `save` keeps it. -/
theorem mode_invariant_c7_witness :
    (Model.test mDynReady (PyVal.list [PyVal.int 1]) "CPU"
        PyVal.none).1.mode = "test" ∧
    (Model.save mDynReady "ckpt").1.mode = mDynReady.mode :=
  ⟨(mode_invariant_c7 true fwPlain mDynReady (PyVal.list [PyVal.int 1])
      (PyVal.int 0) optVal (PyVal.str "l") PyVal.none "CPU" "ckpt"
      (Or.inl rfl)).2.2.2.1,
   (mode_invariant_c7 true fwPlain mDynReady (PyVal.list [PyVal.int 1])
      (PyVal.int 0) optVal (PyVal.str "l") PyVal.none "CPU" "ckpt"
      (Or.inl rfl)).2.2.2.2.1⟩

/-- `OrderedDict.update` does not change the length when every updating
key is already present. -/
theorem odUpdate_length (base upd : List (String × PyVal))
    (hcov : ∀ u ∈ upd, ∃ kv ∈ base, kv.1 = u.1) :
    (odUpdate base upd).length = base.length := by
  unfold odUpdate
  rw [List.length_append, List.length_map]
  have hfil : (upd.filter fun u => base.all fun kv => !(kv.1 == u.1)) = [] := by
    rw [List.filter_eq_nil]
    intro u hu
    obtain ⟨kv, hkv, hkey⟩ := hcov u hu
    intro hall
    rw [List.all_eq_true] at hall
    have h2 := hall kv hkv
    simp [hkey] at h2
  rw [hfil]
  simp

/-- When every shape-hint name is a non-`self` argument, the input
description has exactly one entry per non-`self` argument of `forward`. -/
theorem input_desc_length_of_cover (fw : PyFunc)
    (hcov : hints_cover_nonself fw = true) :
    (StaticGraphAdapter.init fw).input_desc.length
      = (fw.args.filter fun a => a != "self").length := by
  unfold StaticGraphAdapter.init init_input_desc
  unfold hints_cover_nonself at hcov
  cases hh : fw.shape_hints with
  | none => simp
  | some hs =>
    rw [hh] at hcov
    rw [List.all_eq_true] at hcov
    rw [odUpdate_length]
    · simp
    · intro u hu
      have hc := hcov u hu
      have hmem : u.1 ∈ fw.args.filter fun a => a != "self" := by
        simpa using hc
      exact ⟨(u.1, PyVal.none), List.mem_map.mpr ⟨u.1, hmem, rfl⟩, rfl⟩

/-- C5 (amended): in static-graph mode, when every shape-hint name is a
non-`self` argument of `forward` (in particular when there are no hints),
a call to `train`, `eval` or `test` whose `to_list`-normalised inputs do
not number the non-`self` arguments of `forward` raises the arity
`AssertionError` with no program built or executed and the adapter state
unchanged (for `train`/`eval`, provided their readiness assertion passes
first).  Without the proviso on hint names the count to match is the
length of `_input_desc`, which a hint named `self` extends. -/
theorem arity_assert_c5 (fw : PyFunc) (m : Model) (st : StaticState)
    (inputs labels : PyVal) (device : String) (device_ids : PyVal)
    (hcov : hints_cover_nonself fw = true)
    (hst : st = StaticGraphAdapter.init fw)
    (hlen : (seqItems (to_list inputs)).length
        ≠ (fw.args.filter fun a => a != "self").length) :
    StaticGraphAdapter.run m st inputs (some labels) device device_ids
        = (st, [], Except.error (PyErr.assertionError arityMsg)) ∧
    ((truthy m.optimizer && truthy m.loss_functions) = true →
      StaticGraphAdapter.train m st inputs labels device device_ids
        = ({ m with mode := "train" }, st, [],
           Except.error (PyErr.assertionError arityMsg))) ∧
    (truthy m.loss_functions = true →
      StaticGraphAdapter.eval m st inputs labels device device_ids
        = ({ m with mode := "eval" }, st, [],
           Except.error (PyErr.assertionError arityMsg))) ∧
    StaticGraphAdapter.test m st inputs device device_ids
        = ({ m with mode := "test" }, st, [],
           Except.error (PyErr.assertionError arityMsg)) := by
  subst hst
  have hlen2 : (seqItems (to_list inputs)).length
      ≠ (StaticGraphAdapter.init fw).input_desc.length := by
    rw [input_desc_length_of_cover fw hcov]
    exact hlen
  refine ⟨?_, ?_, ?_, ?_⟩
  · exact StaticGraphAdapter.run_arity m _ inputs (some labels) device
      device_ids hlen2
  · intro hc
    rw [static_train_eq_pos m _ inputs labels device
      device_ids hc]
    rw [StaticGraphAdapter.run_arity _ _ inputs (some labels) device
      device_ids hlen2]
  · intro hc
    rw [static_eval_eq_pos m _ inputs labels device
      device_ids hc]
    rw [StaticGraphAdapter.run_arity _ _ inputs (some labels) device
      device_ids hlen2]
  · show ({ m with mode := "test" },
      StaticGraphAdapter.run { m with mode := "test" }
        (StaticGraphAdapter.init fw) inputs Option.none device device_ids) = _
    rw [StaticGraphAdapter.run_arity _ _ inputs Option.none device
      device_ids hlen2]

/-- C5 witness: two inputs against the one non-`self` argument of
`fwPlain` trip the arity assertion in `test` on the prepared static
model. -/
theorem arity_assert_c5_witness :
    StaticGraphAdapter.test mStatReady (StaticGraphAdapter.init fwPlain)
        (PyVal.list [PyVal.int 5, PyVal.int 6]) "CPU" (PyVal.list [])
      = ({ mStatReady with mode := "test" }, StaticGraphAdapter.init fwPlain,
         [], Except.error (PyErr.assertionError arityMsg)) :=
  (arity_assert_c5 fwPlain mStatReady (StaticGraphAdapter.init fwPlain)
      (PyVal.list [PyVal.int 5, PyVal.int 6]) (PyVal.int 0) "CPU"
      (PyVal.list []) rfl rfl (by decide)).2.2.2

/-- C5 counterexample: with the decorator-accepted hint `self=(1,)`,
`_input_desc` gains a `self` entry, so a `test` call whose input count
differs from the number of non-`self` arguments of `forward` (2 vs 1)
raises no `AssertionError` at all — the program is built and executed. -/
theorem arity_counterexample_c5 :
    shape_hints [("self", PyVal.tuple [PyVal.int 1])] fwPlain
        = Except.ok fwSelfHint ∧
    (seqItems (to_list (PyVal.list [PyVal.int 5, PyVal.int 6]))).length
        ≠ (fwSelfHint.args.filter fun a => a != "self").length ∧
    (Model.test (Model.init false fwSelfHint)
        (PyVal.list [PyVal.int 5, PyVal.int 6]) "CPU" (PyVal.list [])).2.2
        = Except.ok (PyVal.obj "fetched") ∧
    (Model.test (Model.init false fwSelfHint)
        (PyVal.list [PyVal.int 5, PyVal.int 6]) "CPU" (PyVal.list [])).2.1
        = [Event.madeProgram "test", Event.compiled "test" Place.cpu,
           Event.executed "test"] :=
  ⟨rfl, by decide, rfl, rfl⟩

/-- C6 (amended): saving never fails for lack of an optimizer.
`StaticGraphAdapter.save` persists from the cached `'train'` program when
it exists and an optimizer is set, and otherwise prints
`"optimizer not initialized, save parameters only"` and persists from the
main program.  `DynamicGraphAdapter.save` always saves the model's state
dict; it writes optimizer state only when an optimizer is set and its
`state_dict()` is non-empty, and prints
`"model does not have an optimizer, save parameters only"` only when no
optimizer is set — when an optimizer is set but its state dict is empty it
neither writes optimizer state nor prints. -/
theorem save_spec_c6 (m : Model) (st : StaticState) (path : String) :
    (st.progs.contains "train" = true → isNone m.optimizer = false →
      StaticGraphAdapter.save m st path
        = (m, st, [Event.savedStatic (ProgChoice.cachedProg "train") path],
           Except.ok PyVal.none)) ∧
    (st.progs.contains "train" = false ∨ isNone m.optimizer = true →
      StaticGraphAdapter.save m st path
        = (m, st,
           [Event.printed "optimizer not initialized, save parameters only",
            Event.savedStatic ProgChoice.mainProg path],
           Except.ok PyVal.none)) ∧
    ((DynamicGraphAdapter.save m path).2.1.head?
        = some (Event.savedDygraphParams path)) ∧
    (isNone m.optimizer = true →
      DynamicGraphAdapter.save m path
        = (m, [Event.savedDygraphParams path,
               Event.printed
                 "model does not have an optimizer, save parameters only"],
           Except.ok PyVal.none)) ∧
    (∀ sd, m.optimizer = PyVal.optObj sd → sd ≠ [] →
      DynamicGraphAdapter.save m path
        = (m, [Event.savedDygraphParams path, Event.savedDygraphOptim path],
           Except.ok PyVal.none)) ∧
    (∀ sd, m.optimizer = PyVal.optObj sd → sd = [] →
      DynamicGraphAdapter.save m path
        = (m, [Event.savedDygraphParams path], Except.ok PyVal.none)) := by
  refine ⟨?_, ?_, ?_, ?_, ?_, ?_⟩
  · intro h1 h2
    have h1m : "train" ∈ st.progs := by simpa using h1
    simp [StaticGraphAdapter.save, h1m, h2]
  · intro h
    rcases h with h | h
    · have hm : "train" ∉ st.progs := by simpa using h
      simp [StaticGraphAdapter.save, hm]
    · simp [StaticGraphAdapter.save, h]
  · unfold DynamicGraphAdapter.save
    split
    · rfl
    · cases hsd : py_state_dict m.optimizer with
      | error e => rfl
      | ok sd => by_cases hemp : sd.isEmpty <;> simp [hemp]
  · intro h
    simp [DynamicGraphAdapter.save, h]
  · intro sd hopt hne
    have hemp : sd.isEmpty = false := by
      cases sd with
      | nil => exact absurd rfl hne
      | cons x xs => rfl
    simp [DynamicGraphAdapter.save, hopt, isNone, py_state_dict, hemp]
  · intro sd hopt hemp
    subst hemp
    simp [DynamicGraphAdapter.save, hopt, isNone, py_state_dict]

/-- C6 witness: the fresh static model (no cached `'train'` program, no
optimizer) still saves, from the main program, after printing the
notice. -/
theorem save_spec_c6_witness :
    StaticGraphAdapter.save mStat0 (StaticGraphAdapter.init fwPlain) "ckpt"
      = (mStat0, StaticGraphAdapter.init fwPlain,
         [Event.printed "optimizer not initialized, save parameters only",
          Event.savedStatic ProgChoice.mainProg "ckpt"],
         Except.ok PyVal.none) :=
  (save_spec_c6 mStat0 (StaticGraphAdapter.init fwPlain) "ckpt").2.1
    (Or.inl rfl)

/-- C6 counterexample: with an optimizer present but an empty
`state_dict`, `DynamicGraphAdapter.save` neither writes optimizer state
nor prints the claimed message — the claim's "printing ... otherwise" is
wrong for this case. -/
theorem save_counterexample_c6 :
    mOptEmptySD.optimizer = PyVal.optObj [] ∧
    DynamicGraphAdapter.save mOptEmptySD "ckpt"
      = (mOptEmptySD, [Event.savedDygraphParams "ckpt"],
         Except.ok PyVal.none) ∧
    Event.printed "model does not have an optimizer, save parameters only"
      ∉ (DynamicGraphAdapter.save mOptEmptySD "ckpt").2.1 ∧
    Event.savedDygraphOptim "ckpt"
      ∉ (DynamicGraphAdapter.save mOptEmptySD "ckpt").2.1 := by
  refine ⟨rfl, rfl, ?_, ?_⟩ <;>
    · show _ ∉ [Event.savedDygraphParams "ckpt"]
      simp

/-- `runExec` with `device_ids = None`: the comprehension over
`device_ids` raises a `TypeError` before compiling or executing. -/
theorem StaticGraphAdapter.runExec_none (mode : String) (st1 : StaticState)
    (ev1 : List Event) (device : String) :
    StaticGraphAdapter.runExec mode st1 ev1 device PyVal.none
      = (st1, ev1,
         Except.error (PyErr.typeError "NoneType object is not iterable")) :=
  rfl

/-- A successful `runExec` iterated `device_ids`. -/
theorem StaticGraphAdapter.runExec_ok_iter (mode : String)
    (st1 : StaticState) (ev1 : List Event) (device : String)
    (device_ids : PyVal) (v : PyVal)
    (h : (StaticGraphAdapter.runExec mode st1 ev1 device device_ids).2.2
          = Except.ok v) :
    ∃ items, py_iter device_ids = Except.ok items := by
  cases hit : py_iter device_ids with
  | error e => simp [StaticGraphAdapter.runExec, hit] at h
  | ok items => exact ⟨items, rfl⟩

/-- A successful `runExec` on an empty compiled-program cache went through
`_compile_and_initialize`. -/
theorem StaticGraphAdapter.runExec_fresh_compile (mode : String)
    (st1 : StaticState) (ev1 : List Event) (device : String)
    (device_ids : PyVal) (v : PyVal)
    (hfresh : st1.compiled_progs = [])
    (h : (StaticGraphAdapter.runExec mode st1 ev1 device device_ids).2.2
          = Except.ok v) :
    ∃ pe, StaticGraphAdapter.compile_and_initialize device device_ids
        = Except.ok pe := by
  cases hit : py_iter device_ids with
  | error e => simp [StaticGraphAdapter.runExec, hit] at h
  | ok items =>
    cases hci : StaticGraphAdapter.compile_and_initialize device
        device_ids with
    | error e => simp [StaticGraphAdapter.runExec, hit, hci, hfresh] at h
    | ok pe => exact ⟨pe, rfl⟩

/-- A successful `_compile_and_initialize` ran on `'cpu'`, or on `'gpu'`
with a non-empty list or tuple of device ids whose first element selects
the CUDA place. -/
theorem compile_ok_shape (device : String) (device_ids : PyVal) (pl : Place)
    (ev2 : List Event)
    (h : StaticGraphAdapter.compile_and_initialize device device_ids
          = Except.ok (pl, ev2)) :
    (pyLower device = "cpu" ∧ pl = Place.cpu) ∨
    (pyLower device = "gpu" ∧ ∃ x xs,
      (device_ids = PyVal.list (x :: xs) ∨ device_ids = PyVal.tuple (x :: xs))
      ∧ pl = Place.cuda x) := by
  unfold StaticGraphAdapter.compile_and_initialize at h
  split at h
  · next hcpu =>
    injection h with h1
    injection h1 with hp he
    exact Or.inl ⟨by simpa using hcpu, hp.symm⟩
  · split at h
    · next hcond2 =>
      rw [Bool.and_eq_true] at hcond2
      obtain ⟨hgpu, hlt⟩ := hcond2
      cases hdi : device_ids with
      | list l =>
        rw [hdi] at h
        cases l with
        | nil => exact Except.noConfusion h
        | cons x xs =>
          injection h with h1
          injection h1 with hp he
          exact Or.inr ⟨by simpa using hgpu, x, xs, Or.inl rfl, hp.symm⟩
      | tuple l =>
        rw [hdi] at h
        cases l with
        | nil => exact Except.noConfusion h
        | cons x xs =>
          injection h with h1
          injection h1 with hp he
          exact Or.inr ⟨by simpa using hgpu, x, xs, Or.inr rfl, hp.symm⟩
      | none => rw [hdi] at hlt; exact Bool.noConfusion hlt
      | bool b => rw [hdi] at hlt; exact Bool.noConfusion hlt
      | int n => rw [hdi] at hlt; exact Bool.noConfusion hlt
      | str s => rw [hdi] at hlt; exact Bool.noConfusion hlt
      | optObj sd => rw [hdi] at hlt; exact Bool.noConfusion hlt
      | obj t => rw [hdi] at hlt; exact Bool.noConfusion hlt
    · exact Except.noConfusion h

/-- With `device_ids = None` (the default) `_run` always fails without
executing, whatever else holds. -/
theorem run_none_fails (m : Model) (st : StaticState) (inputs : PyVal)
    (labels : Option PyVal) (device : String) :
    (∃ e, (StaticGraphAdapter.run m st inputs labels device PyVal.none).2.2
        = Except.error e) ∧
    ∀ md, Event.executed md
        ∉ (StaticGraphAdapter.run m st inputs labels device PyVal.none).2.1 := by
  by_cases hlen : (seqItems (to_list inputs)).length = st.input_desc.length
  · by_cases hpc : st.progs.contains m.mode = true
    · rw [StaticGraphAdapter.run_cached m st inputs labels device PyVal.none
        hlen hpc, StaticGraphAdapter.runExec_none]
      exact ⟨⟨_, rfl⟩, by intro md; simp⟩
    · rw [StaticGraphAdapter.run_fresh m st inputs labels device PyVal.none
        hlen (Bool.not_eq_true _ ▸ hpc), StaticGraphAdapter.runExec_none]
      refine ⟨⟨_, rfl⟩, ?_⟩
      intro md
      simp
  · rw [StaticGraphAdapter.run_arity m st inputs labels device PyVal.none
      (fun hc => hlen hc)]
    exact ⟨⟨_, rfl⟩, by intro md; simp⟩

/-- C8 (amended): in static-graph mode every call to `train`, `eval` or
`test` with the default `device_ids=None` raises an exception before the
program is executed, because `_run` iterates `device_ids` to build the
compiled-program cache key; a successful `_run` requires `device_ids` to
be iterable; `_compile_and_initialize` succeeds only on `'cpu'`, or on
`'gpu'` with a non-empty list or tuple whose first element selects the
place; and on a fresh compiled-program cache a successful `'gpu'` run
requires such a list or tuple.  (On a warm cache the compile step is
skipped, so the list/tuple requirement holds only for the cache-missing
call — see the counterexample.) -/
theorem device_ids_c8 (m : Model) (st : StaticState) (inputs labels : PyVal)
    (device : String) (device_ids : PyVal) (pl : Place) (ev2 : List Event)
    (v : PyVal) :
    (∃ e, (StaticGraphAdapter.train m st inputs labels device
        PyVal.none).2.2.2 = Except.error e) ∧
    (∀ md, Event.executed md
        ∉ (StaticGraphAdapter.train m st inputs labels device
            PyVal.none).2.2.1) ∧
    (∃ e, (StaticGraphAdapter.eval m st inputs labels device
        PyVal.none).2.2.2 = Except.error e) ∧
    (∀ md, Event.executed md
        ∉ (StaticGraphAdapter.eval m st inputs labels device
            PyVal.none).2.2.1) ∧
    (∃ e, (StaticGraphAdapter.test m st inputs device PyVal.none).2.2.2
        = Except.error e) ∧
    (∀ md, Event.executed md
        ∉ (StaticGraphAdapter.test m st inputs device PyVal.none).2.2.1) ∧
    ((StaticGraphAdapter.run m st inputs (some labels) device
        device_ids).2.2 = Except.ok v →
      ∃ items, py_iter device_ids = Except.ok items) ∧
    (StaticGraphAdapter.compile_and_initialize device device_ids
        = Except.ok (pl, ev2) →
      (pyLower device = "cpu" ∧ pl = Place.cpu) ∨
      (pyLower device = "gpu" ∧ ∃ x xs,
        (device_ids = PyVal.list (x :: xs)
          ∨ device_ids = PyVal.tuple (x :: xs)) ∧ pl = Place.cuda x)) ∧
    (st.compiled_progs = [] → pyLower device = "gpu" →
      (StaticGraphAdapter.run m st inputs (some labels) device
          device_ids).2.2 = Except.ok v →
      ∃ x xs, device_ids = PyVal.list (x :: xs)
        ∨ device_ids = PyVal.tuple (x :: xs)) := by
  have hrun_ok : ∀ (st1 : StaticState),
      (StaticGraphAdapter.run m st1 inputs (some labels) device
          device_ids).2.2 = Except.ok v →
      (∃ items, py_iter device_ids = Except.ok items) ∧
      (st1.compiled_progs = [] →
        ∃ pe, StaticGraphAdapter.compile_and_initialize device device_ids
          = Except.ok pe) := by
    intro st1 hok
    by_cases hlen : (seqItems (to_list inputs)).length
        = st1.input_desc.length
    · by_cases hpc : st1.progs.contains m.mode = true
      · rw [StaticGraphAdapter.run_cached m st1 inputs (some labels) device
          device_ids hlen hpc] at hok
        exact ⟨StaticGraphAdapter.runExec_ok_iter _ _ _ _ _ _ hok,
          fun hfresh => StaticGraphAdapter.runExec_fresh_compile _ _ _ _ _ _
            hfresh hok⟩
      · rw [StaticGraphAdapter.run_fresh m st1 inputs (some labels) device
          device_ids hlen (Bool.not_eq_true _ ▸ hpc)] at hok
        exact ⟨StaticGraphAdapter.runExec_ok_iter _ _ _ _ _ _ hok,
          fun hfresh => StaticGraphAdapter.runExec_fresh_compile m.mode
            { st1 with progs := st1.progs ++ [m.mode] }
            [Event.madeProgram m.mode] device device_ids v hfresh hok⟩
    · rw [StaticGraphAdapter.run_arity m st1 inputs (some labels) device
        device_ids hlen] at hok
      exact Except.noConfusion hok
  refine ⟨?_, ?_, ?_, ?_, ?_, ?_, ?_, ?_, ?_⟩
  · by_cases hc : (truthy m.optimizer && truthy m.loss_functions) = true
    · rw [static_train_eq_pos m st inputs labels device
        PyVal.none hc]
      exact (run_none_fails _ st inputs (some labels) device).1
    · rw [static_train_eq_neg m st inputs labels device
        PyVal.none hc]
      exact ⟨_, rfl⟩
  · by_cases hc : (truthy m.optimizer && truthy m.loss_functions) = true
    · rw [static_train_eq_pos m st inputs labels device
        PyVal.none hc]
      exact (run_none_fails _ st inputs (some labels) device).2
    · rw [static_train_eq_neg m st inputs labels device
        PyVal.none hc]
      intro md
      simp
  · by_cases hc : truthy m.loss_functions = true
    · rw [static_eval_eq_pos m st inputs labels device
        PyVal.none hc]
      exact (run_none_fails _ st inputs (some labels) device).1
    · rw [static_eval_eq_neg m st inputs labels device
        PyVal.none hc]
      exact ⟨_, rfl⟩
  · by_cases hc : truthy m.loss_functions = true
    · rw [static_eval_eq_pos m st inputs labels device
        PyVal.none hc]
      exact (run_none_fails _ st inputs (some labels) device).2
    · rw [static_eval_eq_neg m st inputs labels device
        PyVal.none hc]
      intro md
      simp
  · exact (run_none_fails _ st inputs Option.none device).1
  · exact (run_none_fails _ st inputs Option.none device).2
  · intro hok
    exact (hrun_ok st hok).1
  · exact compile_ok_shape device device_ids pl ev2
  · intro hfresh hgpu hok
    obtain ⟨⟨pl1, ev21⟩, hc⟩ := (hrun_ok st hok).2 hfresh
    rcases compile_ok_shape device device_ids pl1 ev21 hc with
      ⟨hcpu, _⟩ | ⟨_, x, xs, hshape, _⟩
    · rw [hgpu] at hcpu
      exact absurd hcpu (by decide)
    · exact ⟨x, xs, hshape⟩

/-- C8 witness: a successful CPU run with `device_ids=[]` shows the
iterability consequence at a concrete input. -/
theorem device_ids_c8_witness :
    ∃ items, py_iter (PyVal.list []) = Except.ok items :=
  (device_ids_c8 mStat0 (StaticGraphAdapter.init fwPlain)
      (PyVal.list [PyVal.int 1]) (PyVal.int 0) "CPU" (PyVal.list [])
      Place.cpu [] (PyVal.obj "fetched")).2.2.2.2.2.2.1 rfl

/-- C8 counterexample: after a first GPU `test` call with `[0]` warms the
compiled-program cache, a second GPU `test` call succeeds with the string
`"0"` as `device_ids` — not a list or tuple — so the claimed "succeed only
when ... a non-empty list or tuple" fails on warm caches. -/
theorem device_ids_counterexample_c8 :
    gpuCall1.2.2 = Except.ok (PyVal.obj "fetched") ∧
    gpuCall2.2.2 = Except.ok (PyVal.obj "fetched") ∧
    is_list_or_tuple (PyVal.str "0") = false :=
  ⟨rfl, rfl, rfl⟩

/-- Replacing values (first phase of `odUpdate`) commutes with key
lookup. -/
theorem replaceKeys_find? (base upd : List (String × PyVal)) (k : String) :
    ((base.map fun kv =>
        match upd.find? (fun u => u.1 == kv.1) with
        | some u => (kv.1, u.2)
        | Option.none => kv).find? fun kv => kv.1 == k)
      = (base.find? fun kv => kv.1 == k).map fun kv =>
          match upd.find? (fun u => u.1 == kv.1) with
          | some u => (kv.1, u.2)
          | Option.none => kv := by
  induction base with
  | nil => rfl
  | cons kv rest ih =>
    rw [List.map_cons, List.find?_cons, List.find?_cons]
    have hkey : (match upd.find? (fun u : String × PyVal => u.1 == kv.1) with
        | some u => (kv.1, u.2)
        | Option.none => kv).1 = kv.1 := by
      cases upd.find? (fun u : String × PyVal => u.1 == kv.1) <;> rfl
    rw [hkey]
    cases hk : (kv.1 == k) with
    | true => rfl
    | false => exact ih

/-- When no `base` key matches `k`, the appended-fresh phase of
`odUpdate` finds exactly what `upd` finds. -/
theorem freshKeys_find? (base upd : List (String × PyVal)) (k : String)
    (hb : ∀ kv ∈ base, ((kv : String × PyVal).1 == k) = false) :
    ((upd.filter fun u => base.all fun kv => !(kv.1 == u.1)).find?
        fun u => u.1 == k)
      = upd.find? fun u => u.1 == k := by
  induction upd with
  | nil => rfl
  | cons u rest ih =>
    by_cases hu : (u.1 == k) = true
    · have huk : u.1 = k := by simpa using hu
      have hall : (base.all fun kv => !(kv.1 == u.1)) = true := by
        rw [List.all_eq_true]
        intro kv hkv
        rw [huk]
        simp [hb kv hkv]
      rw [List.filter_cons, if_pos hall, List.find?_cons, List.find?_cons,
        hu]
    · have hu2 : (u.1 == k) = false := Bool.not_eq_true _ ▸ hu
      rw [List.filter_cons]
      by_cases hall : (base.all fun kv => !(kv.1 == u.1)) = true
      · rw [if_pos hall, List.find?_cons, List.find?_cons, hu2]
        exact ih
      · rw [if_neg hall, List.find?_cons, hu2]
        exact ih

/-- Lookup in an `OrderedDict.update`: an updated key yields the updating
value, any other key falls back to the base dictionary. -/
theorem lookupVal_odUpdate (base upd : List (String × PyVal)) (k : String) :
    lookupVal (odUpdate base upd) k
      = match upd.find? (fun u => u.1 == k) with
        | some u => some u.2
        | Option.none => lookupVal base k := by
  unfold lookupVal odUpdate
  rw [List.find?_append, replaceKeys_find?]
  cases hbf : base.find? (fun kv => kv.1 == k) with
  | some kv =>
    have hkk : kv.1 = k := by simpa using List.find?_some hbf
    subst hkk
    cases hu : upd.find? (fun u => u.1 == kv.1) with
    | some u => simp [hu]
    | none => simp [hu, hbf]
  | none =>
    have hb : ∀ kv ∈ base, ((kv : String × PyVal).1 == k) = false := by
      intro kv hkv
      have h2 := List.find?_eq_none.mp hbf kv hkv
      simpa using h2
    rw [freshKeys_find? base upd k hb]
    cases hu : upd.find? (fun u => u.1 == k) with
    | some u => simp
    | none => simp [hbf]

/-- With pairwise-distinct keys (Python keyword arguments), `find?` on a
member's key returns that member. -/
theorem find?_of_nodup_keys (upd : List (String × PyVal))
    (hnd : (upd.map Prod.fst).Nodup) (h : String × PyVal) (hmem : h ∈ upd) :
    (upd.find? fun u => u.1 == h.1) = some h := by
  induction upd with
  | nil => cases hmem
  | cons u rest ih =>
    rcases List.mem_cons.mp hmem with rfl | hmem2
    · rw [List.find?_cons]
      simp
    · have hu : u.1 ∉ rest.map Prod.fst := (List.nodup_cons.mp hnd).1
      have hh : h.1 ∈ rest.map Prod.fst := List.mem_map_of_mem _ hmem2
      have hne : (u.1 == h.1) = false := by
        have : u.1 ≠ h.1 := fun he => hu (he ▸ hh)
        simpa using this
      rw [List.find?_cons, hne]
      exact ih (List.nodup_cons.mp hnd).2 hmem2

/-- Lookup in the default per-argument description: any listed argument
maps to `None`. -/
theorem lookupVal_const_none (l : List String) (a : String) (ha : a ∈ l) :
    lookupVal (l.map fun n => (n, PyVal.none)) a = some PyVal.none := by
  induction l with
  | nil => cases ha
  | cons n rest ih =>
    by_cases hn : (n == a) = true
    · simp [lookupVal, List.find?_cons, hn]
    · rcases List.mem_cons.mp ha with rfl | hrest
      · simp at hn
      · have hn2 : (n == a) = false := Bool.not_eq_true _ ▸ hn
        unfold lookupVal at ih ⊢
        rw [List.map_cons, List.find?_cons]
        simp only [hn2]
        exact ih hrest

/-- A successful `shape_hints` application returns the function itself
with the hints stored on it. -/
theorem shape_hints_ok_eq (hints : List (String × PyVal)) (func fd : PyFunc)
    (h : shape_hints hints func = Except.ok fd) :
    fd = { func with shape_hints := some hints } := by
  unfold shape_hints at h
  split at h
  · exact Except.noConfusion h
  · split at h
    · split at h
      · injection h with h1
        exact h1.symm
      · exact Except.noConfusion h
    · exact Except.noConfusion h

/-- C10: the `shape_hints` decorator raises an `AssertionError` exactly
when the hints are empty, some hint value is not a list or tuple, or some
hint name is not an argument name of the decorated function (any error it
raises is an `AssertionError`); otherwise it returns the function itself
with the `shape_hints` attribute set.  The stored hints then override the
default `None` shapes in `StaticGraphAdapter`'s input description, while
non-hinted non-`self` arguments keep shape `None`. -/
theorem shape_hints_c10 (hints : List (String × PyVal)) (func : PyFunc) :
    ((∃ e, shape_hints hints func = Except.error e) ↔
      (hints = [] ∨ (∃ h ∈ hints, is_list_or_tuple h.2 = false) ∨
       (∃ h ∈ hints, func.args.contains h.1 = false))) ∧
    (∀ e, shape_hints hints func = Except.error e →
      ∃ s, e = PyErr.assertionError s) ∧
    (∀ fd, shape_hints hints func = Except.ok fd →
      fd = { func with shape_hints := some hints } ∧ fd.args = func.args) ∧
    (∀ fd, shape_hints hints func = Except.ok fd →
      (hints.map Prod.fst).Nodup →
      (∀ h ∈ hints,
        lookupVal (StaticGraphAdapter.init fd).input_desc h.1 = some h.2) ∧
      (∀ a ∈ fd.args, a ≠ "self" → (∀ h ∈ hints, h.1 ≠ a) →
        lookupVal (StaticGraphAdapter.init fd).input_desc a
          = some PyVal.none)) := by
  refine ⟨?_, ?_, ?_, ?_⟩
  · by_cases h1 : hints.isEmpty = true
    · refine iff_of_true
        ⟨PyErr.assertionError "hints can not be empty", ?_⟩
        (Or.inl (List.isEmpty_iff.mp h1))
      unfold shape_hints
      rw [if_pos h1]
    · by_cases h2 : hints.all (fun h => is_list_or_tuple h.2) = true
      · by_cases h3 : (hints.map Prod.fst).all
            (fun k => func.args.contains k) = true
        · refine iff_of_false ?_ ?_
          · rintro ⟨e, he⟩
            unfold shape_hints at he
            rw [if_neg h1, if_pos h2, if_pos h3] at he
            exact Except.noConfusion he
          · rintro (he | ⟨h, hh, hf⟩ | ⟨h, hh, hf⟩)
            · exact h1 (List.isEmpty_iff.mpr he)
            · rw [List.all_eq_true] at h2
              rw [h2 h hh] at hf
              exact Bool.noConfusion hf
            · rw [List.all_eq_true] at h3
              rw [h3 h.1 (List.mem_map_of_mem _ hh)] at hf
              exact Bool.noConfusion hf
        · refine iff_of_true ⟨PyErr.assertionError
              "shape hint for arguments that are not present in forward method",
              ?_⟩ ?_
          · unfold shape_hints
            rw [if_neg h1, if_pos h2, if_neg h3]
          · rw [List.all_eq_true] at h3
            push_neg at h3
            obtain ⟨k, hk, hnk⟩ := h3
            obtain ⟨h, hh, hk2⟩ := List.mem_map.mp hk
            subst hk2
            exact Or.inr (Or.inr ⟨h, hh, Bool.not_eq_true _ ▸ hnk⟩)
      · refine iff_of_true
          ⟨PyErr.assertionError "shape hint must be a list or tuple", ?_⟩ ?_
        · unfold shape_hints
          rw [if_neg h1, if_neg h2]
        · rw [List.all_eq_true] at h2
          push_neg at h2
          obtain ⟨h, hh, hnh⟩ := h2
          exact Or.inr (Or.inl ⟨h, hh, Bool.not_eq_true _ ▸ hnh⟩)
  · intro e he
    unfold shape_hints at he
    split at he
    · injection he with h1
      exact ⟨_, h1.symm⟩
    · split at he
      · split at he
        · exact Except.noConfusion he
        · injection he with h1
          exact ⟨_, h1.symm⟩
      · injection he with h1
        exact ⟨_, h1.symm⟩
  · intro fd hok
    have hfd := shape_hints_ok_eq hints func fd hok
    subst hfd
    exact ⟨rfl, rfl⟩
  · intro fd hok hnd
    have hfd := shape_hints_ok_eq hints func fd hok
    subst hfd
    have hdesc : (StaticGraphAdapter.init
        { func with shape_hints := some hints }).input_desc
        = odUpdate ((func.args.filter fun n => n != "self").map
            fun n => (n, PyVal.none)) hints := by
      simp [StaticGraphAdapter.init, init_input_desc]
    constructor
    · intro h hh
      rw [hdesc, lookupVal_odUpdate, find?_of_nodup_keys hints hnd h hh]
    · intro a ha hself hnoh
      have hfind : (hints.find? fun u => u.1 == a) = Option.none := by
        rw [List.find?_eq_none]
        intro u hu
        simpa using hnoh u hu
      rw [hdesc, lookupVal_odUpdate, hfind]
      refine lookupVal_const_none _ a ?_
      rw [List.mem_filter]
      exact ⟨ha, by simpa using hself⟩

/-- C10 witness: the hint `x=[None]` on `fwPlain` is accepted and
overrides the default shape of argument `x` in the input description. -/
theorem shape_hints_c10_witness :
    lookupVal (StaticGraphAdapter.init
        { fwPlain with
          shape_hints := some [("x", PyVal.list [PyVal.none])] }).input_desc
        "x"
      = some (PyVal.list [PyVal.none]) :=
  ((shape_hints_c10 [("x", PyVal.list [PyVal.none])] fwPlain).2.2.2
      { fwPlain with shape_hints := some [("x", PyVal.list [PyVal.none])] }
      rfl (by simp)).1 ("x", PyVal.list [PyVal.none]) (by simp)
